import Mathlib

/-!
# Verification of the invoice-maker backend's core business logic

Shallow embedding of the invoice preview / numbering / confirmation workflow
of the `backend/app` package (files `services/invoice_parser.py`,
`api/invoices.py`, `api/clients.py`, `api/chat.py`).

Modelling conventions:
* Python `Decimal` values are modelled as exact rationals (`ℚ`); Python's
  `Decimal` arithmetic at the magnitudes admitted by the schema
  (`Numeric(12,2)` and smaller) is exact, so this is value-faithful.
* Database rows are Lean structures, tables are lists in storage order;
  `query(...).first()` is `List.find?`, `.all()` with a filter is
  `List.filter`.
* SQL `ilike` without wildcard characters in the operand is case-insensitive
  equality; `ilike '%x%'` is case-insensitive substring containment
  (inputs are assumed free of `%`/`_` wildcards).
* Primary keys (UUIDs in the source) are modelled as `Nat` drawn from a
  fresh-id counter; only freshness/distinctness is relevant.
* External effects (the LLM extraction oracle, PDF rendering, e-mail
  generation, `time.time()`, `date.today()`) are explicit parameters.
-/

/-- Python `\s` / `str.strip()` whitespace characters. -/
def isPySpace (c : Char) : Bool :=
  c = ' ' || c = '\t' || c = '\n' || c = '\x0d' || c = '\x0b' || c = '\x0c'

/-- Python `str.strip()`. -/
def pyStrip (s : String) : String :=
  String.mk (((s.toList.dropWhile isPySpace).reverse.dropWhile isPySpace).reverse)

/-- Python `str.lower()` (character-wise ASCII lowering; `String.toLower`
is avoided because its implementation does not reduce in the kernel). -/
def pyLower (s : String) : String := String.mk (s.toList.map Char.toLower)

/-- Case-insensitive character equality (Python `re.IGNORECASE` / `.lower()`). -/
def charEqCI (a b : Char) : Bool := a.toLower = b.toLower

/-- `ndl` occurs as a substring of `hay` (Python `ndl in hay` for `str`). -/
def strContains (hay ndl : String) : Bool :=
  let h := hay.toList
  let n := ndl.toList
  (List.range (h.length + 1)).any (fun i => List.isPrefixOf n (List.drop i h))

/-- Zero-pad the decimal representation of `n` to width `w`
(Python format `{n:0wd}`; wider numbers are kept unpadded). -/
def padZeros (w : Nat) (n : Nat) : String :=
  let s := toString n
  String.mk (List.replicate (w - s.length) '0') ++ s

/-- Value of a list of decimal digit characters. -/
def digitsToNat (ds : List Char) : Nat :=
  ds.foldl (fun a c => a * 10 + (c.toNat - '0'.toNat)) 0

/-- Auxiliary splitter state machine for `splitChar`. -/
def splitOnCharAux (sep : Char) : List Char → List Char → List String
  | [], acc => [String.mk acc.reverse]
  | c :: rest, acc =>
    if c = sep then String.mk acc.reverse :: splitOnCharAux sep rest []
    else splitOnCharAux sep rest (c :: acc)

/-- Python `s.split(sep)` for a one-character separator (the only shape the
source uses); `String.splitOn` is avoided because it does not reduce in the
kernel. -/
def splitChar (s : String) (sep : Char) : List String := splitOnCharAux sep s.toList []

/-- SQL `LIKE 'pre%'` / kernel-reducible replacement for `String.isPrefixOf`. -/
def strStartsWith (s pre : String) : Bool := List.isPrefixOf pre.toList s.toList

/-- Python `int(s)` on a digit string (kernel-reducible `String.toNat?`). -/
def strToNat? (s : String) : Option Nat :=
  if s.length > 0 && s.toList.all Char.isDigit then some (digitsToNat s.toList) else none

/-- Calendar date (Python `datetime.date`). -/
structure PyDate where
  year : Nat
  month : Nat
  day : Nat
deriving DecidableEq, Repr

def isLeapYear (y : Nat) : Bool :=
  (y % 4 = 0 && y % 100 ≠ 0) || y % 400 = 0

def daysInMonth (y m : Nat) : Nat :=
  if m = 2 then (if isLeapYear y then 29 else 28)
  else if m = 4 || m = 6 || m = 9 || m = 11 then 30
  else 31

/-- `datetime.strptime(s, "%Y-%m-%d")`. -/
def parseYMD (s : String) : Option PyDate :=
  match splitChar s '-' with
  | [ys, ms, ds] =>
    match strToNat? ys, strToNat? ms, strToNat? ds with
    | some y, some m, some d =>
      if 1 ≤ m && m ≤ 12 && 1 ≤ d && d ≤ daysInMonth y m && 1 ≤ ys.length && ys.length ≤ 4 then
        some ⟨y, m, d⟩
      else none
    | _, _, _ => none
  | _ => none

/-- `datetime.strptime(s, "%m/%d/%Y")`. -/
def parseMDY (s : String) : Option PyDate :=
  match splitChar s '/' with
  | [ms, ds, ys] =>
    match strToNat? ys, strToNat? ms, strToNat? ds with
    | some y, some m, some d =>
      if 1 ≤ m && m ≤ 12 && 1 ≤ d && d ≤ daysInMonth y m && 1 ≤ ys.length && ys.length ≤ 4 then
        some ⟨y, m, d⟩
      else none
    | _, _, _ => none
  | _ => none

/-- `InvoiceParser._parse_date`: `None`/empty is `None`, then try
`YYYY-MM-DD`, then `MM/DD/YYYY`. -/
def parse_date : Option String → Option PyDate
  | none => none
  | some s =>
    if s = "" then none
    else match parseYMD s with
      | some d => some d
      | none => parseMDY s

/-- Python `date.isoformat()`. -/
def isoformat (d : PyDate) : String :=
  padZeros 4 d.year ++ "-" ++ padZeros 2 d.month ++ "-" ++ padZeros 2 d.day

/-! ## Data model (`models/*.py`) -/

inductive InvoiceStatus where
  | draft
  | generated
  | sent
  | paid
deriving DecidableEq, Repr

/-- `models/client.py` (fields relevant to the claims). -/
structure Client where
  id : Nat
  name : String
  default_rate : ℚ
  template_type : String
  invoice_prefix : String
  next_invoice_number : Option Nat
deriving DecidableEq, Repr

/-- `models/hours_entry.py`: a persisted hours row (amount is derived). -/
structure HoursEntryRow where
  date : PyDate
  hours : ℚ
  rate : ℚ
deriving DecidableEq, Repr

/-- `models/line_item.py`: a persisted line item (amount is stored). -/
structure LineItemRow where
  description : String
  quantity : ℚ
  rate : ℚ
  amount : ℚ
deriving DecidableEq, Repr

/-- `models/invoice.py`, with its child rows inlined (they are 1-n tables
keyed by `invoice_id` in the source). -/
structure Invoice where
  id : Nat
  client_id : Nat
  session_id : Option Nat
  invoice_number : String
  date : PyDate
  total_amount : ℚ
  status : InvoiceStatus
  pdf_path : Option String
  notes : Option String
  hours_entries : List HoursEntryRow
  line_items : List LineItemRow
deriving DecidableEq, Repr

/-- The relational store: clients and invoices in storage order,
plus a fresh-id supply standing in for UUID generation. -/
structure DB where
  clients : List Client
  invoices : List Invoice
  nextInvoiceId : Nat
  nextClientId : Nat
deriving DecidableEq, Repr

/-- Preview hours entry as stored in the session's preview JSON. -/
structure PreviewEntry where
  date : String
  hours : ℚ
  rate : ℚ
  amount : ℚ
deriving DecidableEq, Repr

/-- Preview line item as stored in the session's preview JSON. -/
structure PreviewItem where
  description : String
  quantity : ℚ
  rate : ℚ
  amount : ℚ
deriving DecidableEq, Repr

/-- The parsed invoice-preview JSON value (`invoice_preview_json`).
`invoice_id`/`pdf_url`/e-mail fields are absent until the preview is
sealed by a successful confirmation. -/
structure Preview where
  client_id : Nat
  client_name : String
  invoice_number : String
  invoice_type : String
  date : String
  service_period_start : Option String
  service_period_end : Option String
  hours_entries : List PreviewEntry
  line_items : List PreviewItem
  total_amount : ℚ
  notes : Option String
  invoice_id : Option Nat := none
  pdf_url : Option String := none
  email_subject : Option String := none
  email_body : Option String := none
deriving DecidableEq, Repr

/-! ## `services/invoice_parser.py` -/

/-- Case-insensitive list-prefix test (used for reversed suffix matching). -/
def isPrefixCI : List Char → List Char → Bool
  | [], _ => true
  | _ :: _, [] => false
  | a :: as, b :: bs => charEqCI a b && isPrefixCI as bs

/-- One `re.sub(r'\s+SFX\.?$', '', s, flags=IGNORECASE)` step of
`_normalize_client_name` (`allowDot` is whether the pattern carries `\.?`).
Removes one-or-more whitespace, the suffix token, and an optional trailing
dot from the end of the string; otherwise leaves the string unchanged. -/
def stripBusinessSuffix (sfx : String) (allowDot : Bool) (s : String) : String :=
  let rev := s.toList.reverse
  let rev1 := match rev with
    | '.' :: rest => if allowDot then rest else rev
    | _ => rev
  let sfxRev := sfx.toList.reverse
  if isPrefixCI sfxRev rev1 then
    let rest := rev1.drop sfxRev.length
    match rest with
    | c :: _ =>
      if isPySpace c then String.mk ((rest.dropWhile isPySpace).reverse) else s
    | [] => s
  else s

/-- The suffix patterns of `_normalize_client_name`, in source order;
the boolean records whether the regex allows an optional trailing dot. -/
def businessSuffixPatterns : List (String × Bool) :=
  [("LLC", true), ("Inc", true), ("Corp", true), ("Corporation", false),
   ("Ltd", true), ("Limited", false), ("Co", true), ("Company", false),
   ("LP", false), ("LLP", false), ("PC", false), ("PLLC", false)]

/-- `InvoiceParser._normalize_client_name`. -/
def normalize_client_name (name : String) : String :=
  let normalized := pyStrip name
  let normalized :=
    businessSuffixPatterns.foldl (fun acc pr => stripBusinessSuffix pr.1 pr.2 acc) normalized
  pyStrip normalized

/-- `InvoiceParser._find_or_suggest_client`: exact `ilike`, then
`ilike '%name%'` (input contained in the stored name), then the normalized
per-client scan; `first()` scans in storage order. -/
def find_or_suggest_client (client_name : String) (roster : List Client) : Option Client :=
  if client_name = "" then none
  else
    match roster.find? (fun c => pyLower c.name = pyLower client_name) with
    | some c => some c
    | none =>
      match roster.find? (fun c => strContains (pyLower c.name) (pyLower client_name)) with
      | some c => some c
      | none =>
        let normalized_input := pyLower (normalize_client_name client_name)
        roster.find? (fun c =>
          let normalized_db := pyLower (normalize_client_name c.name)
          normalized_input = normalized_db ||
            strContains normalized_db normalized_input ||
            strContains normalized_input normalized_db)

/-- `client.invoice_prefix or "INV"` (empty string is falsy). -/
def numberTag (client : Client) : String :=
  if Client.invoice_prefix client = "" then "INV" else Client.invoice_prefix client

/-- Sequence extraction inside `_generate_invoice_number`'s loop: split on
`-`, require at least 3 parts, keep the digits among the first three
characters of the last part (`seq_part[:3]`); `int('')` raises, which the
source catches and skips. -/
def seqDigitsOf (numStr : String) : Option Nat :=
  let parts := splitChar numStr '-' 
  if parts.length ≥ 3 then
    match parts.getLast? with
    | some seqPart =>
      let ds := (seqPart.toList.take 3).filter Char.isDigit
      if ds = [] then none else some (digitsToNat ds)
    | none => none
  else none

/-- `InvoiceParser._generate_invoice_number`. -/
def generate_invoice_number (client : Client) (invoice_date : PyDate) (db : DB) : String :=
  let tag := numberTag client
  let year := invoice_date.year
  match client.next_invoice_number with
  | some next_seq => tag ++ "-" ++ toString year ++ "-" ++ padZeros 3 next_seq
  | none =>
    let pat := tag ++ "-" ++ toString year ++ "-"
    let existing_invoices := db.invoices.filter
      (fun inv => inv.client_id = client.id && strStartsWith inv.invoice_number pat)
    let max_seq := existing_invoices.foldl
      (fun m inv =>
        match seqDigitsOf inv.invoice_number with
        | some k => max m k
        | none => m) 0
    tag ++ "-" ++ toString year ++ "-" ++ padZeros 3 (max_seq + 1)

/-- Is an invoice number already present in the ledger? -/
def numberTaken (db : DB) (n : String) : Bool :=
  db.invoices.any (fun inv => inv.invoice_number = n)

def lettersAZ : List Char := "abcdefghijklmnopqrstuvwxyz".toList

/-- The `while version <= ord('z')` loop of `_get_unique_invoice_number`. -/
def tryVersionLetters (base : String) (db : DB) : List Char → Option String
  | [] => none
  | ch :: rest =>
    let candidate := base.push ch
    if numberTaken db candidate then tryVersionLetters base db rest
    else some candidate

/-- `InvoiceParser._get_unique_invoice_number` (`ts` models `time.time()`;
the `db is None` guard never fires on the commit path and is omitted). -/
def get_unique_invoice_number (base_number : String) (db : DB) (ts : Nat) : String :=
  if !numberTaken db base_number then base_number
  else
    match tryVersionLetters base_number db lettersAZ with
    | some candidate => candidate
    | none => base_number ++ "-" ++ toString ts

/-- Oracle-extracted hours entry (`invoice_data["hours_entries"][i]`);
`none` models an absent key. -/
structure DraftEntry where
  date : Option String
  hours : Option ℚ
  rate : Option ℚ
deriving DecidableEq, Repr

/-- Oracle-extracted line item (`invoice_data["line_items"][i]`). -/
structure DraftItem where
  description : Option String
  quantity : Option ℚ
  rate : Option ℚ
deriving DecidableEq, Repr

/-- Oracle-extracted invoice draft (`invoice_data`). -/
structure InvoiceDraft where
  client_name : String
  invoice_type : Option String
  date : Option String
  service_period_start : Option String
  service_period_end : Option String
  invoice_number : Option String
  hours_entries : List DraftEntry
  line_items : List DraftItem
  notes : Option String
deriving DecidableEq, Repr

/-- Loop body of the hourly branch of `_build_invoice_preview`: extend the
accumulated `(rows, total)` with one entry; `hours` defaults to 0 and
`rate` to the client's default rate. -/
def hourlyStep (client : Client) (invoice_date : PyDate)
    (acc : List PreviewEntry × ℚ) (entry : DraftEntry) : List PreviewEntry × ℚ :=
  let entry_date := (parse_date entry.date).getD invoice_date
  let hours := entry.hours.getD 0
  let rate := entry.rate.getD client.default_rate
  let amount := hours * rate
  (acc.1 ++ [{ date := isoformat entry_date, hours := hours, rate := rate, amount := amount }],
   acc.2 + amount)

/-- Loop body of the non-hourly branch of `_build_invoice_preview`:
`quantity` defaults to 1, `rate` to 0, `amount = quantity * rate`. -/
def itemStep (acc : List PreviewItem × ℚ) (item : DraftItem) : List PreviewItem × ℚ :=
  let quantity := item.quantity.getD 1
  let rate := item.rate.getD 0
  let amount := quantity * rate
  (acc.1 ++ [{ description := item.description.getD "", quantity := quantity,
               rate := rate, amount := amount }],
   acc.2 + amount)

/-- `InvoiceParser._build_invoice_preview` (`today` models `date.today()`). -/
def build_invoice_preview (invoice_data : InvoiceDraft) (client : Client)
    (db : DB) (today : PyDate) : Preview :=
  let invoice_type := invoice_data.invoice_type.getD client.template_type
  let invoice_date := (parse_date invoice_data.date).getD today
  let period_start := parse_date invoice_data.service_period_start
  let period_end := parse_date invoice_data.service_period_end
  let invoice_number :=
    match invoice_data.invoice_number with
    | some s => if s = "" then generate_invoice_number client invoice_date db else s
    | none => generate_invoice_number client invoice_date db
  let hourly := invoice_type = "hourly"
  let hoursBuilt :=
    if hourly then invoice_data.hours_entries.foldl (hourlyStep client invoice_date) ([], 0)
    else ([], 0)
  let itemsBuilt :=
    if hourly then ([], 0) else invoice_data.line_items.foldl itemStep ([], 0)
  { client_id := client.id,
    client_name := client.name,
    invoice_number := invoice_number,
    invoice_type := invoice_type,
    date := isoformat invoice_date,
    service_period_start := period_start.map isoformat,
    service_period_end := period_end.map isoformat,
    hours_entries := hoursBuilt.1,
    line_items := itemsBuilt.1,
    total_amount := hoursBuilt.2 + itemsBuilt.2,
    notes := invoice_data.notes }

/-- The counter bump at the end of `create_invoice_from_preview`: the first
client row matching the preview's `client_id` has its manual
`next_invoice_number` incremented when present. -/
def incCounterFirst : List Client → Nat → List Client
  | [], _ => []
  | c :: rest, cid =>
    if c.id = cid then
      { c with next_invoice_number := (Client.next_invoice_number c).map (· + 1) } :: rest
    else c :: incCounterFirst rest cid

/-- `InvoiceParser.create_invoice_from_preview`: re-check uniqueness against
the full table, insert the invoice with the preview's `total_amount`
verbatim, copy entries/items verbatim, bump the manual counter, commit. -/
def create_invoice_from_preview (preview : Preview) (db : DB)
    (session_id : Option Nat) (ts : Nat) (today : PyDate) : Invoice × DB :=
  let unique_number := get_unique_invoice_number preview.invoice_number db ts
  let invoice : Invoice :=
    { id := db.nextInvoiceId,
      client_id := preview.client_id,
      session_id := session_id,
      invoice_number := unique_number,
      date := (parse_date (some preview.date)).getD today,
      total_amount := preview.total_amount,
      status := .draft,
      pdf_path := none,
      notes := preview.notes,
      hours_entries := preview.hours_entries.map
        (fun e => { date := (parse_date (some e.date)).getD today,
                    hours := e.hours, rate := e.rate }),
      line_items := preview.line_items.map
        (fun i => { description := i.description, quantity := i.quantity,
                    rate := i.rate, amount := i.amount }) }
  (invoice,
   { db with invoices := db.invoices ++ [invoice],
             clients := incCounterFirst db.clients preview.client_id,
             nextInvoiceId := db.nextInvoiceId + 1 })

/-! ## `api/invoices.py` -/

/-- `calculate_invoice_total`: `sum(hours * rate) + sum(item.amount)`,
both sums starting from `Decimal("0.00")`. -/
def calculate_invoice_total (hs : List HoursEntryRow) (ls : List LineItemRow) : ℚ :=
  hs.foldl (fun acc e => acc + e.hours * e.rate) 0 +
    ls.foldl (fun acc i => acc + i.amount) 0

/-- Request body of `POST /invoices` (`InvoiceCreate`). -/
structure InvoiceCreateReq where
  client_id : Nat
  invoice_number : String
  date : PyDate
  notes : Option String
  hours_entries : List HoursEntryRow
  line_items : List DraftItem
deriving DecidableEq, Repr

/-- `create_invoice` (`POST /invoices`): 404 on unknown client, 400 on a
duplicate number, else insert the rows — line-item `amount` is computed as
`quantity * rate` — and set `total_amount` via `calculate_invoice_total`. -/
def create_invoice (req : InvoiceCreateReq) (db : DB) : Except String (Invoice × DB) :=
  if (db.clients.find? (fun c => c.id = req.client_id)).isNone then
    Except.error "client not found"
  else if db.invoices.any (fun i => i.invoice_number = req.invoice_number) then
    Except.error "invoice number already exists"
  else
    let hs := req.hours_entries
    let ls := req.line_items.map (fun i =>
      let quantity := i.quantity.getD 1
      let rate := i.rate.getD 0
      ({ description := i.description.getD "", quantity := quantity, rate := rate,
         amount := quantity * rate } : LineItemRow))
    let invoice : Invoice :=
      { id := db.nextInvoiceId,
        client_id := req.client_id,
        session_id := none,
        invoice_number := req.invoice_number,
        date := req.date,
        total_amount := calculate_invoice_total hs ls,
        status := .draft,
        pdf_path := none,
        notes := req.notes,
        hours_entries := hs,
        line_items := ls }
    Except.ok (invoice,
      { db with invoices := db.invoices ++ [invoice],
                nextInvoiceId := db.nextInvoiceId + 1 })

/-- Request body of `PUT /invoices/{id}` (`InvoiceUpdate`, with
`exclude_unset`): only these fields are updatable — neither `total_amount`
nor the entry/item collections appear in the schema. -/
structure InvoiceUpdateReq where
  invoice_number : Option String := none
  date : Option PyDate := none
  status : Option InvoiceStatus := none
  notes : Option String := none
deriving DecidableEq, Repr

/-- Replace the (unique-id) invoice row in the table. -/
def replaceInvoice (invs : List Invoice) (inv : Invoice) : List Invoice :=
  invs.map (fun i => if i.id = inv.id then inv else i)

/-- `update_invoice` (`PUT /invoices/{id}`). -/
def update_invoice (invoice_id : Nat) (u : InvoiceUpdateReq) (db : DB) :
    Except String (Invoice × DB) :=
  match db.invoices.find? (fun i => i.id = invoice_id) with
  | none => Except.error "invoice not found"
  | some invoice =>
    let numberClash : Bool :=
      match u.invoice_number with
      | some n => (n != invoice.invoice_number) &&
          db.invoices.any (fun i => i.invoice_number = n)
      | none => false
    if numberClash then Except.error "invoice number already exists"
    else
      let invoice :=
        { invoice with
          invoice_number := (u.invoice_number).getD invoice.invoice_number,
          date := (u.date).getD invoice.date,
          status := (u.status).getD invoice.status,
          notes := match u.notes with | some n => some n | none => invoice.notes }
      Except.ok (invoice, { db with invoices := replaceInvoice db.invoices invoice })

/-! ## `api/clients.py` -/

/-- Request body of `POST /clients` (`ClientCreate`). -/
structure ClientCreateReq where
  name : String
  default_rate : ℚ
  template_type : String
  invoice_prefix : String := "INV"
  next_invoice_number : Option Nat := none
deriving DecidableEq, Repr

/-- `create_client` (`POST /clients`): rejected iff a stored client has
the *exact* same name (`Client.name == client.name`). -/
def create_client (req : ClientCreateReq) (db : DB) : Except String (Client × DB) :=
  if (db.clients.find? (fun c => c.name = req.name)).isSome then
    Except.error "client with this name already exists"
  else
    let client : Client :=
      { id := db.nextClientId,
        name := req.name,
        default_rate := req.default_rate,
        template_type := req.template_type,
        invoice_prefix := ClientCreateReq.invoice_prefix req,
        next_invoice_number := req.next_invoice_number }
    Except.ok (client,
      { db with clients := db.clients ++ [client],
                nextClientId := db.nextClientId + 1 })

/-- Request body of `PUT /clients/{id}` (`ClientUpdate`, with
`exclude_unset`; fields not relevant to name uniqueness are elided). -/
structure ClientUpdateReq where
  name : Option String := none
  default_rate : Option ℚ := none
  next_invoice_number : Option Nat := none
deriving DecidableEq, Repr

/-- Replace the (unique-id) client row in the table. -/
def replaceClient (cs : List Client) (c : Client) : List Client :=
  cs.map (fun x => if x.id = c.id then c else x)

/-- `update_client` (`PUT /clients/{id}`): a rename is rejected iff the new
name differs from the current one and some stored client has the *exact*
same name. -/
def update_client (client_id : Nat) (u : ClientUpdateReq) (db : DB) :
    Except String (Client × DB) :=
  match db.clients.find? (fun c => c.id = client_id) with
  | none => Except.error "client not found"
  | some client =>
    let nameClash : Bool :=
      match u.name with
      | some n => (n != client.name) && (db.clients.find? (fun c => c.name = n)).isSome
      | none => false
    if nameClash then Except.error "client with this name already exists"
    else
      let client :=
        { client with
          name := (u.name).getD client.name,
          default_rate := (u.default_rate).getD client.default_rate,
          next_invoice_number :=
            match u.next_invoice_number with
            | some n => some n
            | none => Client.next_invoice_number client }
      Except.ok (client, { db with clients := replaceClient db.clients client })

/-! ## `api/chat.py` -/

/-- A `chat_messages` row (fields relevant to the claims). -/
structure ChatMsg where
  role : String
  content : String
  has_preview : Bool := false
  preview : Option Preview := none
deriving DecidableEq, Repr

/-- A `chat_sessions` row; `preview` is the parsed
`invoice_preview_json` (`none` models SQL `NULL`). -/
structure SessionState where
  id : Nat
  client_id : Option Nat
  title : String
  preview : Option Preview
  messages : List ChatMsg
deriving DecidableEq, Repr

/-- The state a chat request acts on: the store plus the request's session. -/
structure ChatState where
  db : DB
  session : SessionState
deriving DecidableEq, Repr

/-- Append a message to the session (`db.add(ChatMessage(...)); db.commit()`). -/
def addMsg (s : SessionState) (role content : String) : SessionState :=
  { s with messages := s.messages ++ [{ role := role, content := content }] }

/-- Append an assistant message that carries a frozen preview copy. -/
def addPreviewMsg (s : SessionState) (content : String) (p : Preview) : SessionState :=
  { s with messages :=
      s.messages ++ [{ role := "assistant", content := content,
                       has_preview := true, preview := some p }] }

/-- `ChatResponseStatus` (`schemas/chat.py`). -/
inductive RespStatus where
  | message
  | preview
  | clarificationNeeded
  | clientNotFound
  | invoiceCreated
  | error
deriving DecidableEq, Repr

/-- `ChatResponse` (fields relevant to the claims). -/
structure ChatResponse where
  status : RespStatus
  message : String
  invoice_id : Option Nat := none
  pdf_url : Option String := none
  email_subject : Option String := none
  email_body : Option String := none
deriving DecidableEq, Repr

/-- Outcome of `ai_service.extract_invoice_data` (the external oracle). -/
inductive ExtractionOutcome where
  | clarification (question : String)
  | ready (draft : InvoiceDraft)
  | failed
deriving DecidableEq, Repr

/-- Outcome of `InvoiceParser._process_invoice_data` /
`process_chat_message`. -/
inductive ParserResult where
  | clarification (msg : String)
  | clientNotFound (msg : String) (suggestedName suggestedType : String)
  | preview (p : Preview) (clientId : Nat) (clientName : String)
  | errorOut (msg : String)
deriving DecidableEq, Repr

/-- `InvoiceParser._process_invoice_data`. -/
def process_invoice_data (invoice_data : InvoiceDraft) (db : DB) (today : PyDate) :
    ParserResult :=
  let client_name := pyStrip invoice_data.client_name
  match find_or_suggest_client client_name db.clients with
  | none =>
    .clientNotFound
      ("Client '" ++ client_name ++ "' not found. Would you like to create a new client?")
      client_name (invoice_data.invoice_type.getD "hourly")
  | some client =>
    .preview (build_invoice_preview invoice_data client db today) client.id client.name

/-- `InvoiceParser.process_chat_message`, with the oracle's reply supplied
as a parameter. -/
def process_chat_message (extraction : ExtractionOutcome) (db : DB) (today : PyDate) :
    ParserResult :=
  match extraction with
  | .clarification q => .clarification q
  | .ready invoice_data => process_invoice_data invoice_data db today
  | .failed => .errorOut "Could not process your request. Please try again."

/-- `invoice.pdf_path = pdf_path; invoice.status = InvoiceStatus.GENERATED`. -/
def setPdfGenerated (db : DB) (invoice_id : Nat) (path : String) : DB :=
  { db with invoices := db.invoices.map (fun i =>
      if i.id = invoice_id then { i with pdf_path := some path, status := .generated }
      else i) }

/-- Name of the stored client (`db.query(Client).filter(...).first().name`). -/
def clientNameOf (db : DB) (client_id : Nat) : String :=
  ((db.clients.find? (fun c => c.id = client_id)).map Client.name).getD ""

def invoicePdfUrl (invoice_id : Nat) : String :=
  "/api/invoices/" ++ toString invoice_id ++ "/pdf"

/-- `_confirm_invoice` in `api/chat.py`.

`pdfRes`/`emailRes` model the external PDF renderer and e-mail generator:
`none` means the call raised. A sealed preview (`invoice_id` present)
short-circuits before anything is written. On the create path the invoice
is committed inside `create_invoice_from_preview` *before* rendering; an
exception afterwards is caught, leaving the invoice committed and the
session's preview unsealed. -/
def confirm_invoice (pdfRes : Option String) (emailRes : Option String)
    (ts : Nat) (today : PyDate) (st : ChatState) : ChatResponse × ChatState :=
  match st.session.preview with
  | none =>
    ({ status := .error, message := "No valid invoice preview found." }, st)
  | some preview =>
    match preview.invoice_id with
    | some iid =>
      ({ status := .invoiceCreated,
         message := "Invoice was already created. You can download it below.",
         invoice_id := some iid,
         pdf_url := some ((Preview.pdf_url preview).getD (invoicePdfUrl iid)) }, st)
    | none =>
      let st := { st with session := addMsg st.session "user" "Generate PDF" }
      let created := create_invoice_from_preview preview st.db (some st.session.id) ts today
      let invoice := created.1
      let db1 := created.2
      match pdfRes with
      | none =>
        let m := "Failed to create invoice: PDF generation failed"
        ({ status := .error, message := m },
         { db := db1, session := addMsg st.session "assistant" m })
      | some pdf_path =>
        let db2 := setPdfGenerated db1 invoice.id pdf_path
        match emailRes with
        | none =>
          let m := "Failed to create invoice: email generation failed"
          ({ status := .error, message := m },
           { db := db2, session := addMsg st.session "assistant" m })
        | some email_body =>
          let email_subject :=
            "Invoice " ++ invoice.invoice_number ++ " - " ++ clientNameOf db2 preview.client_id
          let sealed :=
            { preview with invoice_id := some invoice.id,
                           pdf_url := some (invoicePdfUrl invoice.id),
                           email_subject := some email_subject,
                           email_body := some email_body }
          let m := "Invoice " ++ invoice.invoice_number ++
            " created successfully! PDF is ready for download."
          let sess := addMsg { st.session with preview := some sealed } "assistant" m
          ({ status := .invoiceCreated, message := m,
             invoice_id := some invoice.id,
             pdf_url := some (invoicePdfUrl invoice.id),
             email_subject := some email_subject,
             email_body := some email_body },
           { db := db2, session := sess })

/-- The bare confirmation phrases recognised by `chat`. -/
def confirmWords : List String := ["confirm", "yes", "create", "generate", "ok"]

/-- The `POST /chat` handler (`chat` in `api/chat.py`), with the oracle
reply and the render outcomes supplied as parameters. -/
def chat (content : String) (extraction : ExtractionOutcome)
    (pdfRes : Option String) (emailRes : Option String)
    (ts : Nat) (today : PyDate) (st : ChatState) : ChatResponse × ChatState :=
  let st := { st with session := addMsg st.session "user" content }
  let lower_content := pyStrip (pyLower content)
  if lower_content ∈ confirmWords then
    match st.session.preview with
    | some _ => confirm_invoice pdfRes emailRes ts today st
    | none =>
      let m := "Nothing to confirm. Tell me about the invoice you want to create."
      ({ status := .message, message := m },
       { st with session := addMsg st.session "assistant" m })
  else
    match process_chat_message extraction st.db today with
    | .preview p _cid cname =>
      let sess := st.session
      let sess := { sess with
        preview := some p,
        title := if cname ≠ "" && sess.title = "New Chat" then "Invoice: " ++ cname
                 else sess.title,
        client_id := match sess.client_id with
                     | some c => some c
                     | none => some p.client_id }
      let m := "Here's your invoice preview. Say 'confirm' to generate the PDF."
      ({ status := .preview, message := m },
       { st with session := addPreviewMsg sess m p })
    | .clarification m =>
      ({ status := .clarificationNeeded, message := m },
       { st with session := addMsg st.session "assistant" m })
    | .clientNotFound m _ _ =>
      ({ status := .clientNotFound, message := m },
       { st with session := addMsg st.session "assistant" m })
    | .errorOut m =>
      ({ status := .error, message := m },
       { st with session := addMsg st.session "assistant" m })

/-! ## Theorems -/

/-- **C1.** Confirming a sealed preview (stored JSON carries an
`invoice_id`) short-circuits: for every session state whose current
preview has `invoice_id = some iid`, `_confirm_invoice` returns status
`invoice_created` with that same id and the stored `pdf_url` (or its
default), leaves the whole state — in particular the invoice table —
unchanged, so arbitrary repetition returns the identical response; the
chat-message confirmation path gives the same id and leaves the invoice
table unchanged as well. -/
theorem confirm_sealed_short_circuits
    (st : ChatState) (p : Preview) (iid : Nat)
    (hp : st.session.preview = some p) (hid : p.invoice_id = some iid) :
    (∀ pdfRes emailRes ts today,
      (confirm_invoice pdfRes emailRes ts today st).2 = st ∧
      (confirm_invoice pdfRes emailRes ts today st).1.status = RespStatus.invoiceCreated ∧
      (confirm_invoice pdfRes emailRes ts today st).1.invoice_id = some iid ∧
      (confirm_invoice pdfRes emailRes ts today st).1.pdf_url =
        some ((Preview.pdf_url p).getD (invoicePdfUrl iid)) ∧
      (∀ pdfRes2 emailRes2 ts2 today2,
        confirm_invoice pdfRes2 emailRes2 ts2 today2
            (confirm_invoice pdfRes emailRes ts today st).2
          = confirm_invoice pdfRes emailRes ts today st)) ∧
    (∀ content extraction pdfRes emailRes ts today,
      pyStrip (pyLower content) ∈ confirmWords →
      (chat content extraction pdfRes emailRes ts today st).1.invoice_id = some iid ∧
      (chat content extraction pdfRes emailRes ts today st).2.db = st.db) := by
  constructor
  · intro pdfRes emailRes ts today
    simp [confirm_invoice, hp, hid]
  · intro content extraction pdfRes emailRes ts today hw
    simp [chat, hw, addMsg, confirm_invoice, hp, hid]

/-- A concrete sealed preview for exercising the short-circuit path. -/
def sealedPreviewW : Preview :=
  { client_id := 1, client_name := "Spectrio", invoice_number := "SPECTRIO-2026-001",
    invoice_type := "hourly", date := "2026-01-05",
    service_period_start := none, service_period_end := none,
    hours_entries := [], line_items := [], total_amount := 800, notes := none,
    invoice_id := some 7, pdf_url := some "/api/invoices/7/pdf" }

/-- A concrete session state holding the sealed preview. -/
def stSealedW : ChatState :=
  { db := { clients := [], invoices := [], nextInvoiceId := 8, nextClientId := 2 },
    session := { id := 3, client_id := some 1, title := "Invoice: Spectrio",
                 preview := some sealedPreviewW, messages := [] } }

/-- Witness for C1 at a concrete sealed state. -/
theorem confirm_sealed_short_circuits_witness :
    stSealedW.session.preview = some sealedPreviewW ∧
    sealedPreviewW.invoice_id = some 7 ∧
    (confirm_invoice none none 0 ⟨2026, 1, 1⟩ stSealedW).2 = stSealedW ∧
    (confirm_invoice none none 0 ⟨2026, 1, 1⟩ stSealedW).1.invoice_id = some 7 := by
  refine ⟨rfl, rfl, ?_, ?_⟩
  · exact ((confirm_sealed_short_circuits stSealedW sealedPreviewW 7 rfl rfl).1
      none none 0 ⟨2026, 1, 1⟩).1
  · exact ((confirm_sealed_short_circuits stSealedW sealedPreviewW 7 rfl rfl).1
      none none 0 ⟨2026, 1, 1⟩).2.2.1

/-- **C9.** A bare confirmation phrase (trimmed, lower-cased member of
`confirm/yes/ok/create/generate`) sent to a session with no current
preview yields the no-op "nothing to confirm" response: status `message`
(not `error`), no invoice id, the invoice table untouched, and the
session's preview still absent. -/
theorem bare_confirm_without_preview_is_noop
    (content : String) (extraction : ExtractionOutcome)
    (pdfRes emailRes : Option String) (ts : Nat) (today : PyDate) (st : ChatState)
    (hp : st.session.preview = none)
    (hw : pyStrip (pyLower content) ∈ confirmWords) :
    (chat content extraction pdfRes emailRes ts today st).1.status = RespStatus.message ∧
    (chat content extraction pdfRes emailRes ts today st).1.status ≠ RespStatus.error ∧
    (chat content extraction pdfRes emailRes ts today st).1.message =
      "Nothing to confirm. Tell me about the invoice you want to create." ∧
    (chat content extraction pdfRes emailRes ts today st).1.invoice_id = none ∧
    (chat content extraction pdfRes emailRes ts today st).2.db = st.db ∧
    (chat content extraction pdfRes emailRes ts today st).2.session.preview = none := by
  simp [chat, hw, addMsg, hp]

/-- Witness for C9: the message `"  Confirm "` in a fresh session. -/
theorem bare_confirm_without_preview_is_noop_witness :
    ({ db := { clients := [], invoices := [], nextInvoiceId := 0, nextClientId := 0 },
       session := { id := 1, client_id := none, title := "New Chat",
                    preview := none, messages := [] } } : ChatState).session.preview = none ∧
    pyStrip (pyLower "  Confirm ") ∈ confirmWords ∧
    (chat "  Confirm " ExtractionOutcome.failed none none 0 ⟨2026, 1, 1⟩
        { db := { clients := [], invoices := [], nextInvoiceId := 0, nextClientId := 0 },
          session := { id := 1, client_id := none, title := "New Chat",
                       preview := none, messages := [] } }).1.status = RespStatus.message := by
  refine ⟨rfl, by decide, ?_⟩
  exact (bare_confirm_without_preview_is_noop "  Confirm " ExtractionOutcome.failed
    none none 0 ⟨2026, 1, 1⟩ _ rfl (by decide)).1

/-- **C10.** If PDF generation (or e-mail generation) raises while
confirming an *unsealed* preview, the new invoice row persists — it was
committed inside `create_invoice_from_preview` before rendering — but the
session's preview is left without an `invoice_id`, so a subsequent confirm
of the same session commits a *second* invoice row (with a fresh id)
instead of short-circuiting to the first one. -/
theorem render_failure_leaves_preview_unsealed
    (st : ChatState) (p : Preview)
    (pdfPath emailBody pdfPath2 : String) (ts today ts2 today2 : Nat)
    (hp : st.session.preview = some p) (hid : p.invoice_id = none) :
    ((confirm_invoice none none ts ⟨2026, 1, today⟩ st).1.status = RespStatus.error ∧
     (confirm_invoice none none ts ⟨2026, 1, today⟩ st).2.db.invoices.length =
       st.db.invoices.length + 1 ∧
     (confirm_invoice none none ts ⟨2026, 1, today⟩ st).2.session.preview = some p) ∧
    ((confirm_invoice (some pdfPath2) none ts ⟨2026, 1, today⟩ st).1.status = RespStatus.error ∧
     (confirm_invoice (some pdfPath2) none ts ⟨2026, 1, today⟩ st).2.db.invoices.length =
       st.db.invoices.length + 1 ∧
     (confirm_invoice (some pdfPath2) none ts ⟨2026, 1, today⟩ st).2.session.preview = some p) ∧
    ((confirm_invoice (some pdfPath) (some emailBody) ts2 ⟨2026, 1, today2⟩
        (confirm_invoice none none ts ⟨2026, 1, today⟩ st).2).1.status =
          RespStatus.invoiceCreated ∧
     (confirm_invoice (some pdfPath) (some emailBody) ts2 ⟨2026, 1, today2⟩
        (confirm_invoice none none ts ⟨2026, 1, today⟩ st).2).1.invoice_id =
          some (st.db.nextInvoiceId + 1) ∧
     (confirm_invoice (some pdfPath) (some emailBody) ts2 ⟨2026, 1, today2⟩
        (confirm_invoice none none ts ⟨2026, 1, today⟩ st).2).2.db.invoices.length =
          st.db.invoices.length + 2 ∧
     st.db.nextInvoiceId + 1 ≠ st.db.nextInvoiceId) := by
  refine ⟨⟨?_, ?_, ?_⟩, ⟨?_, ?_, ?_⟩, ⟨?_, ?_, ?_, by omega⟩⟩ <;>
    simp [confirm_invoice, hp, hid, create_invoice_from_preview, addMsg, setPdfGenerated]

/-- A concrete unsealed preview (no `invoice_id` yet). -/
def unsealedPreviewW : Preview :=
  { client_id := 1, client_name := "Spectrio", invoice_number := "SPECTRIO-2026-001",
    invoice_type := "hourly", date := "2026-01-05",
    service_period_start := none, service_period_end := none,
    hours_entries := [{ date := "2026-01-05", hours := 8, rate := 100, amount := 800 }],
    line_items := [], total_amount := 800, notes := none }

/-- A concrete session state holding the unsealed preview. -/
def stUnsealedW : ChatState :=
  { db := { clients := [{ id := 1, name := "Spectrio", default_rate := 100,
                          template_type := "hourly", invoice_prefix := "SPECTRIO",
                          next_invoice_number := none }],
            invoices := [], nextInvoiceId := 0, nextClientId := 2 },
    session := { id := 3, client_id := some 1, title := "Invoice: Spectrio",
                 preview := some unsealedPreviewW, messages := [] } }

/-- Witness for C10 at a concrete unsealed state. -/
theorem render_failure_leaves_preview_unsealed_witness :
    stUnsealedW.session.preview = some unsealedPreviewW ∧
    unsealedPreviewW.invoice_id = none ∧
    (confirm_invoice none none 0 ⟨2026, 1, 1⟩ stUnsealedW).2.db.invoices.length = 1 ∧
    (confirm_invoice none none 0 ⟨2026, 1, 1⟩ stUnsealedW).2.session.preview =
      some unsealedPreviewW ∧
    (confirm_invoice (some "x.pdf") (some "body") 1 ⟨2026, 1, 2⟩
        (confirm_invoice none none 0 ⟨2026, 1, 1⟩ stUnsealedW).2).2.db.invoices.length = 2 := by
  have h := render_failure_leaves_preview_unsealed stUnsealedW unsealedPreviewW
    "x.pdf" "body" "y.pdf" 0 1 1 2 rfl rfl
  refine ⟨rfl, rfl, ?_, h.1.2.2, ?_⟩
  · exact h.1.2.1
  · exact h.2.2.2.2.1

/-- Bumping the manual counter of the first client row matching `cid`
is visible through a `first()` lookup by that id. -/
theorem incCounterFirst_find (cid : Nat) (c : Client) :
    ∀ cs : List Client, cs.find? (fun x => x.id = cid) = some c →
      (incCounterFirst cs cid).find? (fun x => x.id = cid) =
        some { c with next_invoice_number := (Client.next_invoice_number c).map (· + 1) }
  | [], h => by simp [List.find?] at h
  | a :: as, h => by
    by_cases ha : a.id = cid
    · rw [List.find?_cons_of_pos _ (by simpa using ha)] at h
      injection h with hac
      subst hac
      have heq : incCounterFirst (a :: as) cid =
          { a with next_invoice_number := (Client.next_invoice_number a).map (· + 1) } :: as := by
        simp [incCounterFirst, ha]
      rw [heq, List.find?_cons_of_pos _ (by simpa using ha)]
    · rw [List.find?_cons_of_neg _ (by simpa using ha)] at h
      have heq : incCounterFirst (a :: as) cid = a :: incCounterFirst as cid := by
        simp [incCounterFirst, ha]
      rw [heq, List.find?_cons_of_neg _ (by simpa using ha)]
      exact incCounterFirst_find cid c as h

/-- **C3.** Manual sequence mode: when the client's
`next_invoice_number` is set to `n`, (i) number generation returns
`{PREFIX}-{YEAR}-{n:03d}` built from the counter verbatim, independent of
the ledger contents; (ii) a chat turn that is not a confirmation (in
particular one that builds and stores a preview) leaves the whole store —
clients and their counters included — unchanged; and (iii) committing a
preview for that client bumps the counter to exactly `n + 1`. -/
theorem manual_sequence_counter
    (client : Client) (n : Nat) (invoice_date : PyDate) (db : DB)
    (hn : client.next_invoice_number = some n) :
    (generate_invoice_number client invoice_date db =
       numberTag client ++ "-" ++ toString invoice_date.year ++ "-" ++ padZeros 3 n) ∧
    (∀ db2 : DB, generate_invoice_number client invoice_date db2 =
       generate_invoice_number client invoice_date db) ∧
    (∀ content extraction pdfRes emailRes ts today st,
       pyStrip (pyLower content) ∉ confirmWords →
       (chat content extraction pdfRes emailRes ts today st).2.db = st.db) ∧
    (∀ (preview : Preview) (db2 : DB) (sid : Option Nat) (ts : Nat) (today : PyDate),
       db2.clients.find? (fun x => x.id = client.id) = some client →
       preview.client_id = client.id →
       ((create_invoice_from_preview preview db2 sid ts today).2).clients.find?
           (fun x => x.id = client.id) =
         some { client with next_invoice_number := some (n + 1) }) := by
  refine ⟨?_, ?_, ?_, ?_⟩
  · simp [generate_invoice_number, hn]
  · intro db2
    simp [generate_invoice_number, hn]
  · intro content extraction pdfRes emailRes ts today st hnc
    simp only [chat]
    rw [if_neg hnc]
    rcases process_chat_message extraction st.db today with q | ⟨m, sn, sy⟩ | ⟨p, cid, cname⟩ | m <;> simp
  · intro preview db2 sid ts today hfind hcid
    have h := incCounterFirst_find client.id client db2.clients hfind
    simp only [create_invoice_from_preview, hcid]
    simpa [hn] using h

/-- Witness for C3: counter 5 yields `SPEC-2026-005` and becomes 6 on commit. -/
theorem manual_sequence_counter_witness :
    (({ id := 4, name := "Spectrio", default_rate := 100, template_type := "hourly",
        invoice_prefix := "SPEC", next_invoice_number := some 5 } : Client)).next_invoice_number
        = some 5 ∧
    generate_invoice_number
        { id := 4, name := "Spectrio", default_rate := 100, template_type := "hourly",
          invoice_prefix := "SPEC", next_invoice_number := some 5 }
        ⟨2026, 1, 15⟩
        { clients := [{ id := 4, name := "Spectrio", default_rate := 100,
                        template_type := "hourly", invoice_prefix := "SPEC",
                        next_invoice_number := some 5 }],
          invoices := [], nextInvoiceId := 0, nextClientId := 5 }
      = "SPEC-2026-005" ∧
    ((create_invoice_from_preview
        { unsealedPreviewW with client_id := 4 }
        { clients := [{ id := 4, name := "Spectrio", default_rate := 100,
                        template_type := "hourly", invoice_prefix := "SPEC",
                        next_invoice_number := some 5 }],
          invoices := [], nextInvoiceId := 0, nextClientId := 5 }
        none 0 ⟨2026, 1, 15⟩).2).clients.find? (fun x => x.id = 4) =
      some { id := 4, name := "Spectrio", default_rate := 100, template_type := "hourly",
             invoice_prefix := "SPEC", next_invoice_number := some 6 } := by
  have h := manual_sequence_counter
    { id := 4, name := "Spectrio", default_rate := 100, template_type := "hourly",
      invoice_prefix := "SPEC", next_invoice_number := some 5 }
    5 ⟨2026, 1, 15⟩
    { clients := [{ id := 4, name := "Spectrio", default_rate := 100,
                    template_type := "hourly", invoice_prefix := "SPEC",
                    next_invoice_number := some 5 }],
      invoices := [], nextInvoiceId := 0, nextClientId := 5 }
    rfl
  refine ⟨rfl, ?_, ?_⟩
  · have h1 := h.1
    rw [h1]
    decide
  · have h4 := h.2.2.2 { unsealedPreviewW with client_id := 4 }
      { clients := [{ id := 4, name := "Spectrio", default_rate := 100,
                      template_type := "hourly", invoice_prefix := "SPEC",
                      next_invoice_number := some 5 }],
        invoices := [], nextInvoiceId := 0, nextClientId := 5 }
      none 0 ⟨2026, 1, 15⟩ (by decide) rfl
    rw [h4]

/-- Unrolling the hourly accumulation loop of `_build_invoice_preview`:
the rows are the entries mapped through the hours/rate/amount calculation
(rate falling back to the client's default) and the running total is the
sum of the amounts. -/
theorem foldl_hourlyStep (client : Client) (d : PyDate) :
    ∀ (entries : List DraftEntry) (acc : List PreviewEntry × ℚ),
      entries.foldl (hourlyStep client d) acc =
        (acc.1 ++ entries.map (fun e =>
           ({ date := isoformat ((parse_date e.date).getD d),
              hours := e.hours.getD 0,
              rate := e.rate.getD client.default_rate,
              amount := (e.hours.getD 0) * (e.rate.getD client.default_rate) } : PreviewEntry)),
         acc.2 + (entries.map
           (fun e => (e.hours.getD 0) * (e.rate.getD client.default_rate))).sum)
  | [], acc => by simp
  | e :: rest, acc => by
    rw [List.foldl_cons, foldl_hourlyStep client d rest _]
    simp [hourlyStep, add_assoc]

/-- A concrete hourly client for the round-trip example. -/
def exClientC7 : Client :=
  { id := 1, name := "Spectrio", default_rate := 100, template_type := "hourly",
    invoice_prefix := "SPECTRIO", next_invoice_number := none }

/-- The claim's round-trip draft: 8 h and 4 h at rate 100. -/
def exDraftC7 : InvoiceDraft :=
  { client_name := "Spectrio", invoice_type := some "hourly", date := some "2026-01-10",
    service_period_start := none, service_period_end := none, invoice_number := none,
    hours_entries := [{ date := some "2026-01-05", hours := some 8, rate := some 100 },
                      { date := some "2026-01-06", hours := some 4, rate := some 100 }],
    line_items := [], notes := none }

def exDbC7 : DB := { clients := [exClientC7], invoices := [], nextInvoiceId := 0, nextClientId := 2 }

/-- **C7.** Hourly previews: each entry row's amount is
`hours × rate` with the rate falling back to the client's default when the
oracle omitted it, the preview total is exactly the sum of the entry
amounts (all arithmetic over exact rationals, the model of Python
`Decimal`), and the claim's concrete round-trip
`[{2026-01-05, 8 h, 100}, {2026-01-06, 4 h, 100}]` totals exactly 1200. -/
theorem hourly_preview_exact_amounts :
    (∀ (invoice_data : InvoiceDraft) (client : Client) (db : DB) (today : PyDate),
      invoice_data.invoice_type.getD client.template_type = "hourly" →
      (build_invoice_preview invoice_data client db today).hours_entries =
        invoice_data.hours_entries.map (fun e =>
          ({ date := isoformat ((parse_date e.date).getD
                ((parse_date invoice_data.date).getD today)),
             hours := e.hours.getD 0,
             rate := e.rate.getD client.default_rate,
             amount := (e.hours.getD 0) * (e.rate.getD client.default_rate) } : PreviewEntry)) ∧
      (∀ pe ∈ (build_invoice_preview invoice_data client db today).hours_entries,
         pe.amount = pe.hours * pe.rate) ∧
      (build_invoice_preview invoice_data client db today).total_amount =
        ((build_invoice_preview invoice_data client db today).hours_entries.map
          PreviewEntry.amount).sum ∧
      (build_invoice_preview invoice_data client db today).line_items = []) ∧
    (build_invoice_preview exDraftC7 exClientC7 exDbC7 ⟨2026, 1, 10⟩).total_amount = 1200 := by
  constructor
  · intro invoice_data client db today htype
    have hfold := foldl_hourlyStep client ((parse_date invoice_data.date).getD today)
      invoice_data.hours_entries ([], 0)
    refine ⟨?_, ?_, ?_, ?_⟩
    · simp [build_invoice_preview, htype, hfold]
    · intro pe hpe
      simp only [build_invoice_preview, htype, if_pos, hfold] at hpe
      simp only [List.nil_append, List.mem_map] at hpe
      obtain ⟨e, _, rfl⟩ := hpe
      rfl
    · simp [build_invoice_preview, htype, hfold, Function.comp_def]
    · simp [build_invoice_preview, htype]
  · show (build_invoice_preview exDraftC7 exClientC7 exDbC7 ⟨2026, 1, 10⟩).total_amount = 1200
    simp only [build_invoice_preview, exDraftC7, exClientC7, exDbC7, List.foldl, hourlyStep,
      Option.getD_some, Option.getD_none]
    norm_num

/-- Witness for C7: the concrete hourly draft satisfies the hypothesis and
totals 1200 exactly. -/
theorem hourly_preview_exact_amounts_witness :
    exDraftC7.invoice_type.getD exClientC7.template_type = "hourly" ∧
    (build_invoice_preview exDraftC7 exClientC7 exDbC7 ⟨2026, 1, 10⟩).total_amount =
      ((build_invoice_preview exDraftC7 exClientC7 exDbC7 ⟨2026, 1, 10⟩).hours_entries.map
        PreviewEntry.amount).sum ∧
    (build_invoice_preview exDraftC7 exClientC7 exDbC7 ⟨2026, 1, 10⟩).total_amount = 1200 := by
  refine ⟨rfl, ?_, hourly_preview_exact_amounts.2⟩
  exact (hourly_preview_exact_amounts.1 exDraftC7 exClientC7 exDbC7 ⟨2026, 1, 10⟩ rfl).2.2.1

/-- **C2 (amended).** The total/entries invariant holds for the REST
endpoints — `POST /invoices` stores `total_amount` recomputed via
`calculate_invoice_total` with line-item amounts `quantity × rate`, and
`PUT /invoices/{id}` can change neither the total nor the entry/item
collections — but an invoice committed from a chat preview stores the
preview's `total_amount` *verbatim*, with the entries copied alongside it
and no recomputation, so a preview whose stored total disagrees with its
entries is persisted as-is. -/
theorem total_amount_amended :
    (∀ (req : InvoiceCreateReq) (db : DB) (inv : Invoice) (db2 : DB),
      create_invoice req db = Except.ok (inv, db2) →
      inv.total_amount = calculate_invoice_total inv.hours_entries inv.line_items ∧
      (∀ li ∈ inv.line_items, li.amount = li.quantity * li.rate) ∧
      db2.invoices = db.invoices ++ [inv]) ∧
    (∀ (iid : Nat) (u : InvoiceUpdateReq) (db : DB) (inv : Invoice) (db2 : DB),
      update_invoice iid u db = Except.ok (inv, db2) →
      ∃ inv0, db.invoices.find? (fun i => i.id = iid) = some inv0 ∧
        inv.total_amount = inv0.total_amount ∧
        inv.hours_entries = inv0.hours_entries ∧
        inv.line_items = inv0.line_items) ∧
    (∀ (preview : Preview) (db : DB) (sid : Option Nat) (ts : Nat) (today : PyDate),
      ((create_invoice_from_preview preview db sid ts today).1).total_amount =
        preview.total_amount ∧
      ((create_invoice_from_preview preview db sid ts today).1).hours_entries =
        preview.hours_entries.map (fun e =>
          { date := (parse_date (some e.date)).getD today,
            hours := e.hours, rate := e.rate })) := by
  refine ⟨?_, ?_, ?_⟩
  · intro req db inv db2 h
    simp only [create_invoice] at h
    split at h
    · exact absurd h (by simp)
    · split at h
      · exact absurd h (by simp)
      · rw [Except.ok.injEq, Prod.mk.injEq] at h
        obtain ⟨rfl, rfl⟩ := h
        refine ⟨rfl, ?_, rfl⟩
        intro li hli
        simp only [List.mem_map] at hli
        obtain ⟨i, _, rfl⟩ := hli
        rfl
  · intro iid u db inv db2 h
    simp only [update_invoice] at h
    split at h
    · exact absurd h (by simp)
    · rename_i inv0 hfind
      split at h
      · exact absurd h (by simp)
      · rw [Except.ok.injEq, Prod.mk.injEq] at h
        obtain ⟨rfl, rfl⟩ := h
        exact ⟨inv0, hfind, rfl, rfl, rfl⟩
  · intro preview db sid ts today
    exact ⟨rfl, rfl⟩

/-- A preview whose stored total (999) disagrees with its single
8 h × 100 entry (sum 800). -/
def pBadC2 : Preview :=
  { client_id := 1, client_name := "Acme", invoice_number := "INV-2026-001",
    invoice_type := "hourly", date := "2026-01-05", service_period_start := none,
    service_period_end := none,
    hours_entries := [{ date := "2026-01-05", hours := 8, rate := 100, amount := 800 }],
    line_items := [], total_amount := 999, notes := none }

def dbC2 : DB :=
  { clients := [{ id := 1, name := "Acme", default_rate := 100, template_type := "hourly",
                  invoice_prefix := "INV", next_invoice_number := none }],
    invoices := [], nextInvoiceId := 0, nextClientId := 2 }

/-- Counterexample to C2 as stated: committing `pBadC2` persists an
invoice whose stored `total_amount` (999) differs from the sum of its
hours entries (800) — the total is taken from the (client-settable)
preview, not recomputed. -/
theorem stored_total_not_recomputed_counterexample :
    ((create_invoice_from_preview pBadC2 dbC2 none 0 ⟨2026, 1, 10⟩).1).total_amount = 999 ∧
    calculate_invoice_total
        ((create_invoice_from_preview pBadC2 dbC2 none 0 ⟨2026, 1, 10⟩).1).hours_entries
        ((create_invoice_from_preview pBadC2 dbC2 none 0 ⟨2026, 1, 10⟩).1).line_items = 800 ∧
    (999 : ℚ) ≠ 800 ∧
    ((create_invoice_from_preview pBadC2 dbC2 none 0 ⟨2026, 1, 10⟩).2).invoices.length = 1 := by
  refine ⟨rfl, ?_, by norm_num, ?_⟩
  · simp only [create_invoice_from_preview, pBadC2, calculate_invoice_total, List.map,
      List.foldl]
    norm_num
  · simp [create_invoice_from_preview, dbC2]

def reqC2W : InvoiceCreateReq :=
  { client_id := 1, invoice_number := "INV-2026-002", date := ⟨2026, 1, 10⟩,
    notes := none,
    hours_entries := [{ date := ⟨2026, 1, 5⟩, hours := 8, rate := 100 }],
    line_items := [] }

/-- The row `POST /invoices` produces for `reqC2W` on `dbC2`. -/
def invC2W : Invoice :=
  { id := 0, client_id := 1, session_id := none, invoice_number := "INV-2026-002",
    date := ⟨2026, 1, 10⟩,
    total_amount := calculate_invoice_total reqC2W.hours_entries [],
    status := .draft, pdf_path := none, notes := none,
    hours_entries := reqC2W.hours_entries, line_items := [] }

/-- Witness for the amended C2 at a concrete REST create. -/
theorem total_amount_amended_witness :
    create_invoice reqC2W dbC2 =
      Except.ok (invC2W, { dbC2 with invoices := dbC2.invoices ++ [invC2W],
                                     nextInvoiceId := 1 }) ∧
    invC2W.total_amount = calculate_invoice_total invC2W.hours_entries invC2W.line_items ∧
    ((create_invoice_from_preview pBadC2 dbC2 none 0 ⟨2026, 1, 10⟩).1).total_amount =
      pBadC2.total_amount := by
  refine ⟨rfl, ?_, (total_amount_amended.2.2 pBadC2 dbC2 none 0 ⟨2026, 1, 10⟩).1⟩
  exact (total_amount_amended.1 reqC2W dbC2 invC2W
    { dbC2 with invoices := dbC2.invoices ++ [invC2W], nextInvoiceId := 1 } rfl).1

/-- **C8 (amended).** Client-name uniqueness is enforced at write time but
*case-sensitively*: `POST /clients` is rejected exactly when a stored
client has the byte-for-byte identical name, and a rename through
`PUT /clients/{id}` to a different name is rejected exactly when a stored
client has that exact name — names differing only in letter case are
accepted, so two stored clients may differ only in case. -/
theorem client_name_uniqueness_case_sensitive :
    (∀ (req : ClientCreateReq) (db : DB),
      (∃ e, create_client req db = Except.error e) ↔
        ∃ c ∈ db.clients, c.name = req.name) ∧
    (∀ (req : ClientCreateReq) (db : DB) (c : Client) (db2 : DB),
      create_client req db = Except.ok (c, db2) →
      db2.clients = db.clients ++ [c] ∧ c.name = req.name) ∧
    (∀ (cid : Nat) (u : ClientUpdateReq) (db : DB) (client : Client) (n : String),
      db.clients.find? (fun x => x.id = cid) = some client →
      u.name = some n → n ≠ client.name →
      ((∃ e, update_client cid u db = Except.error e) ↔
        ∃ c ∈ db.clients, c.name = n)) := by
  refine ⟨?_, ?_, ?_⟩
  · intro req db
    cases hf : db.clients.find? (fun c => c.name = req.name) with
    | none =>
      rw [List.find?_eq_none] at hf
      simp only [create_client, hf, Option.isSome_none]
      constructor
      · rintro ⟨e, he⟩
        rw [if_neg (by simpa using hf)] at he
        exact absurd he (by simp)
      · rintro ⟨c, hc, hcn⟩
        exact absurd (by simpa using hcn) (hf c hc)
    | some c =>
      have hmem := List.mem_of_find?_eq_some hf
      have hname : c.name = req.name := by simpa using List.find?_some hf
      constructor
      · intro _
        exact ⟨c, hmem, hname⟩
      · intro _
        refine ⟨"client with this name already exists", ?_⟩
        simp [create_client, hf]
  · intro req db c db2 h
    simp only [create_client] at h
    split at h
    · exact absurd h (by simp)
    · rw [Except.ok.injEq, Prod.mk.injEq] at h
      obtain ⟨rfl, rfl⟩ := h
      exact ⟨rfl, rfl⟩
  · intro cid u db client n hfind hun hne
    simp only [update_client, hfind, hun]
    have hbne : (n != client.name) = true := by
      simpa using hne
    cases hf : db.clients.find? (fun c => c.name = n) with
    | none =>
      rw [List.find?_eq_none] at hf
      simp only [hbne, Bool.true_and, Option.isSome_none]
      constructor
      · rintro ⟨e, he⟩
        rw [if_neg (by simp [hf])] at he
        exact absurd he (by simp)
      · rintro ⟨c, hc, hcn⟩
        exact absurd (by simpa using hcn) (hf c hc)
    | some c =>
      have hmem := List.mem_of_find?_eq_some hf
      have hname : c.name = n := by simpa using List.find?_some hf
      constructor
      · intro _
        exact ⟨c, hmem, hname⟩
      · intro _
        refine ⟨"client with this name already exists", ?_⟩
        simp [hbne, hf]

def spectrioC8 : Client :=
  { id := 1, name := "Spectrio", default_rate := 0, template_type := "hourly",
    invoice_prefix := "INV", next_invoice_number := none }

def dbC8 : DB := { clients := [spectrioC8], invoices := [], nextInvoiceId := 0, nextClientId := 2 }

def reqC8 : ClientCreateReq := { name := "spectrio", default_rate := 0, template_type := "hourly" }

/-- Counterexample to C8 as stated: with `"Spectrio"` stored, creating
`"spectrio"` is *not* rejected — afterwards two clients' names differ only
in letter case. -/
theorem case_insensitive_uniqueness_counterexample :
    (match create_client reqC8 dbC8 with
     | Except.ok (_, db2) => db2.clients.map Client.name
     | Except.error _ => []) = ["Spectrio", "spectrio"] ∧
    ("Spectrio" : String) ≠ "spectrio" ∧
    pyLower "Spectrio" = pyLower "spectrio" := by
  exact ⟨rfl, by decide, by decide⟩

/-- Witness for the amended C8: a case-only rename collision is accepted,
an exact-name creation collision is rejected. -/
theorem client_name_uniqueness_case_sensitive_witness :
    dbC8.clients.find? (fun x => x.id = 1) = some spectrioC8 ∧
    ¬(∃ e, update_client 1 { name := some "spectrio" } dbC8 = Except.error e) ∧
    (∃ e, create_client { reqC8 with name := "Spectrio" } dbC8 = Except.error e) := by
  refine ⟨rfl, ?_, ?_⟩
  · have h := client_name_uniqueness_case_sensitive.2.2 1 { name := some "spectrio" }
      dbC8 spectrioC8 "spectrio" rfl rfl (by decide)
    intro he
    exact absurd (h.mp he) (by decide)
  · exact (client_name_uniqueness_case_sensitive.1 { reqC8 with name := "Spectrio" }
      dbC8).mpr ⟨spectrioC8, by decide, rfl⟩

/-- The letter-suffix loop is a first-match search over `a..z`. -/
theorem tryVersionLetters_eq_find? (base : String) (db : DB) :
    ∀ l : List Char, tryVersionLetters base db l =
      (l.find? (fun c => !numberTaken db (base.push c))).map (fun c => base.push c)
  | [] => rfl
  | ch :: rest => by
    by_cases h : numberTaken db (base.push ch)
    · rw [List.find?_cons_of_neg _ (by simp [h])]
      simpa [tryVersionLetters, h] using tryVersionLetters_eq_find? base db rest
    · rw [List.find?_cons_of_pos _ (by simp [h])]
      simp [tryVersionLetters, h]

/-- **C4 (amended).** At commit time `create_invoice_from_preview` re-derives
the number through `_get_unique_invoice_number` against the full table:
a free base number is used unchanged; a taken base gets the first letter of
`a..z` whose suffixed form is free (every earlier letter being taken), and
that committed number is not in the table; only when the base *and all 26
letter suffixes* are taken is `{base}-{timestamp}` used — without any
further uniqueness check, so the no-collision guarantee holds exactly when
the base or some letter-suffixed form is still free. -/
theorem collision_guard_amended :
    (∀ (base : String) (db : DB) (ts : Nat),
      numberTaken db base = false → get_unique_invoice_number base db ts = base) ∧
    (∀ (base : String) (db : DB) (ts : Nat) (ch : Char),
      numberTaken db base = true →
      lettersAZ.find? (fun c => !numberTaken db (base.push c)) = some ch →
      get_unique_invoice_number base db ts = base.push ch ∧
      numberTaken db (base.push ch) = false ∧
      ∃ l1 l2, lettersAZ = l1 ++ ch :: l2 ∧
        ∀ c ∈ l1, numberTaken db (base.push c) = true) ∧
    (∀ (base : String) (db : DB) (ts : Nat),
      numberTaken db base = true →
      (∀ c ∈ lettersAZ, numberTaken db (base.push c) = true) →
      get_unique_invoice_number base db ts = base ++ "-" ++ toString ts) ∧
    (∀ (preview : Preview) (db : DB) (sid : Option Nat) (ts : Nat) (today : PyDate),
      ((create_invoice_from_preview preview db sid ts today).1).invoice_number =
        get_unique_invoice_number preview.invoice_number db ts) := by
  refine ⟨?_, ?_, ?_, ?_⟩
  · intro base db ts h
    simp [get_unique_invoice_number, h]
  · intro base db ts ch htaken hfind
    have hfree : numberTaken db (base.push ch) = false := by
      simpa using List.find?_some hfind
    refine ⟨?_, hfree, ?_⟩
    · simp [get_unique_invoice_number, htaken, tryVersionLetters_eq_find?, hfind]
    · rw [List.find?_eq_some] at hfind
      obtain ⟨_, l1, l2, heq, hall⟩ := hfind
      exact ⟨l1, l2, heq, fun c hc => by simpa using hall c hc⟩
  · intro base db ts htaken hall
    have hnone : lettersAZ.find? (fun c => !numberTaken db (base.push c)) = none := by
      rw [List.find?_eq_none]
      intro c hc
      simp [hall c hc]
    simp [get_unique_invoice_number, htaken, tryVersionLetters_eq_find?, hnone]
  · intro preview db sid ts today
    rfl

/-- A bare ledger row carrying only an invoice number. -/
def mkLedgerInvoice (cid : Nat) (n : String) : Invoice :=
  { id := 0, client_id := cid, session_id := none, invoice_number := n,
    date := ⟨2026, 1, 1⟩, total_amount := 0, status := .draft, pdf_path := none,
    notes := none, hours_entries := [], line_items := [] }

/-- A ledger holding `N`, all 26 letter forms `Na..Nz`, *and* `N-123`. -/
def dbC4 : DB :=
  { clients := [],
    invoices := (["N", "N-123"] ++ lettersAZ.map (fun c => String.push "N" c)).map
      (mkLedgerInvoice 1),
    nextInvoiceId := 1, nextClientId := 0 }

/-- Counterexample to C4's unconditional no-collision conclusion: with the
base and all 26 letter suffixes taken, the timestamp fallback (at
`time.time() = 123`) returns `N-123`, which *is* already in the table. -/
theorem collision_guard_timestamp_counterexample :
    get_unique_invoice_number "N" dbC4 123 = "N-123" ∧
    numberTaken dbC4 "N-123" = true := by
  exact ⟨by decide, by decide⟩

def dbC4W : DB :=
  { clients := [], invoices := [mkLedgerInvoice 1 "B"], nextInvoiceId := 1, nextClientId := 0 }

/-- Witness for the amended C4: base `B` taken, suffix `a` free. -/
theorem collision_guard_amended_witness :
    numberTaken dbC4W "B" = true ∧
    lettersAZ.find? (fun c => !numberTaken dbC4W ("B".push c)) = some 'a' ∧
    get_unique_invoice_number "B" dbC4W 77 = "Ba" ∧
    numberTaken dbC4W "Ba" = false := by
  refine ⟨by decide, by decide, ?_, ?_⟩
  · exact (collision_guard_amended.2.1 "B" dbC4W 77 'a' (by decide) (by decide)).1
  · exact (collision_guard_amended.2.1 "B" dbC4W 77 'a' (by decide) (by decide)).2.1

/-- The candidate sequence values the auto-numbering scan extracts for a
client and year. -/
def seqCandidates (client : Client) (invoice_date : PyDate) (db : DB) : List Nat :=
  (db.invoices.filter (fun inv => inv.client_id = client.id &&
      strStartsWith inv.invoice_number
        (numberTag client ++ "-" ++ toString invoice_date.year ++ "-"))).filterMap
    (fun inv => seqDigitsOf inv.invoice_number)

/-- The `max_seq` accumulation loop is `foldl max` over the extracted values. -/
theorem foldl_seq_eq_filterMap :
    ∀ (l : List Invoice) (acc : Nat),
      l.foldl (fun m inv =>
        match seqDigitsOf inv.invoice_number with
        | some k => max m k
        | none => m) acc
        = (l.filterMap (fun inv => seqDigitsOf inv.invoice_number)).foldl max acc
  | [], _ => rfl
  | inv :: rest, acc => by
    cases h : seqDigitsOf inv.invoice_number with
    | none => simp [List.foldl_cons, List.filterMap_cons, h, foldl_seq_eq_filterMap rest]
    | some k => simp [List.foldl_cons, List.filterMap_cons, h, foldl_seq_eq_filterMap rest]

/-- `foldl max` is an upper bound, dominates the seed, and is attained. -/
theorem foldl_max_spec :
    ∀ (l : List Nat) (a : Nat),
      (∀ x ∈ l, x ≤ l.foldl max a) ∧ a ≤ l.foldl max a ∧
        (l.foldl max a = a ∨ l.foldl max a ∈ l)
  | [], a => by simp
  | x :: xs, a => by
    obtain ⟨ih1, ih2, ih3⟩ := foldl_max_spec xs (max a x)
    refine ⟨?_, ?_, ?_⟩
    · intro y hy
      rcases List.mem_cons.mp hy with rfl | hy
      · exact le_trans (le_max_right a y) ih2
      · exact ih1 y hy
    · exact le_trans (le_max_left a x) ih2
    · rcases ih3 with h | h
      · rcases max_choice a x with hax | hax
        · exact Or.inl (by rw [List.foldl_cons, h, hax])
        · exact Or.inr (by rw [List.foldl_cons, h, hax]; exact List.mem_cons_self x xs)
      · exact Or.inr (List.mem_cons_of_mem x h)

/-- **C5 (amended).** Auto mode (no manual counter): the generated number
is `{PREFIX}-{YEAR}-{(m+1):03d}` where `m` is the maximum — 0 when there
are no candidates — over the values extracted from this client's invoices
whose number starts with `{PREFIX}-{YEAR}-`; the extracted value is *not*
the full trailing numeric sequence: it is the number formed by the digits
among the first three characters of the final dash-separated component
(so `001a` gives 1, but `1000` gives 100, not 1000). -/
theorem auto_sequence_amended
    (client : Client) (invoice_date : PyDate) (db : DB)
    (hn : client.next_invoice_number = none) :
    generate_invoice_number client invoice_date db =
      numberTag client ++ "-" ++ toString invoice_date.year ++ "-" ++
        padZeros 3 ((seqCandidates client invoice_date db).foldl max 0 + 1) ∧
    (∀ x ∈ seqCandidates client invoice_date db,
       x ≤ (seqCandidates client invoice_date db).foldl max 0) ∧
    ((seqCandidates client invoice_date db).foldl max 0 = 0 ∨
       (seqCandidates client invoice_date db).foldl max 0 ∈
         seqCandidates client invoice_date db) := by
  refine ⟨?_, (foldl_max_spec _ 0).1, ?_⟩
  · simp only [generate_invoice_number, hn, seqCandidates, foldl_seq_eq_filterMap]
  · exact (foldl_max_spec (seqCandidates client invoice_date db) 0).2.2

/-- Modelled from the spec's words for C5 ("extract the trailing numeric
sequence from each, tolerating a trailing alphabetic version suffix"):
drop a trailing alphabetic run from the last dash-separated component and
read the remaining digits in full. Used only to exhibit where the code
diverges from the claim. -/
def specSeqOf (numStr : String) : Option Nat :=
  match (splitChar numStr '-').getLast? with
  | some seqPart =>
    let core := (seqPart.toList.reverse.dropWhile Char.isAlpha).reverse
    if core ≠ [] && core.all Char.isDigit then some (digitsToNat core) else none
  | none => none

/-- Modelled from the spec's words for C5: the number the claim predicts,
`{PREFIX}-{YEAR}-{(m+1):03d}` with `m` the maximum full trailing numeric
sequence. -/
def specAutoNumber (client : Client) (invoice_date : PyDate) (db : DB) : String :=
  let tag := numberTag client
  let pat := tag ++ "-" ++ toString invoice_date.year ++ "-"
  let ms := (db.invoices.filter (fun inv => inv.client_id = client.id &&
      strStartsWith inv.invoice_number pat)).filterMap
    (fun inv => specSeqOf inv.invoice_number)
  tag ++ "-" ++ toString invoice_date.year ++ "-" ++ padZeros 3 (ms.foldl max 0 + 1)

def cC5 : Client :=
  { id := 1, name := "Acme", default_rate := 0, template_type := "hourly",
    invoice_prefix := "INV", next_invoice_number := none }

def dbC5 : DB :=
  { clients := [cC5], invoices := [mkLedgerInvoice 1 "INV-2026-1000"],
    nextInvoiceId := 1, nextClientId := 2 }

/-- Counterexample to C5 as stated: with `INV-2026-1000` in the ledger the
code extracts only the digits of the first three characters (100) and
generates `INV-2026-101`, while the claim's "maximum trailing numeric
sequence" reading predicts `INV-2026-1001`. -/
theorem auto_sequence_truncation_counterexample :
    generate_invoice_number cC5 ⟨2026, 1, 15⟩ dbC5 = "INV-2026-101" ∧
    specAutoNumber cC5 ⟨2026, 1, 15⟩ dbC5 = "INV-2026-1001" ∧
    ("INV-2026-101" : String) ≠ "INV-2026-1001" := by
  exact ⟨by decide, by decide, by decide⟩

def dbC5W : DB :=
  { clients := [cC5], invoices := [mkLedgerInvoice 1 "INV-2026-007",
      mkLedgerInvoice 1 "INV-2026-001a", mkLedgerInvoice 2 "INV-2026-900"],
    nextInvoiceId := 3, nextClientId := 2 }

/-- Witness for the amended C5: candidates {7, 1} (the other client's 900
is ignored), maximum 7, next number `INV-2026-008`. -/
theorem auto_sequence_amended_witness :
    cC5.next_invoice_number = none ∧
    seqCandidates cC5 ⟨2026, 1, 15⟩ dbC5W = [7, 1] ∧
    generate_invoice_number cC5 ⟨2026, 1, 15⟩ dbC5W = "INV-2026-" ++ padZeros 3 (7 + 1) := by
  refine ⟨rfl, by decide, ?_⟩
  have h := (auto_sequence_amended cC5 ⟨2026, 1, 15⟩ dbC5W rfl).1
  rw [h]
  decide

/-- Modelled from the spec's words for C6 (the claim as stated): step 2
accepts containment *in either direction* with the first roster hit
winning, and step 3 repeats exact-then-substring as two separate passes
over the roster on normalized names. Used only to exhibit where the code
diverges from the claim. -/
def claimResolveC6 (input : String) (roster : List Client) : Option Client :=
  if input = "" then none
  else
    match roster.find? (fun c => pyLower c.name = pyLower input) with
    | some c => some c
    | none =>
      match roster.find? (fun c =>
          strContains (pyLower c.name) (pyLower input) ||
          strContains (pyLower input) (pyLower c.name)) with
      | some c => some c
      | none =>
        match roster.find? (fun c =>
            pyLower (normalize_client_name c.name) = pyLower (normalize_client_name input)) with
        | some c => some c
        | none =>
          roster.find? (fun c =>
            strContains (pyLower (normalize_client_name c.name))
              (pyLower (normalize_client_name input)) ||
            strContains (pyLower (normalize_client_name input))
              (pyLower (normalize_client_name c.name)))

/-- Modelled from the amended claim wording for C6: (1) case-insensitive
exact match; (2) case-insensitive containment of the *input inside the
stored name* only (the reverse direction is not tried at this step); (3) a
single pass over the roster accepting, per client, normalized equality or
normalized containment in either direction. -/
def amendedResolveC6 (input : String) (roster : List Client) : Option Client :=
  if input = "" then none
  else
    Option.orElse (roster.find? (fun c => pyLower c.name = pyLower input)) (fun _ =>
      Option.orElse (roster.find? (fun c => strContains (pyLower c.name) (pyLower input)))
        (fun _ =>
          roster.find? (fun c =>
            let normalized_input := pyLower (normalize_client_name input)
            let normalized_db := pyLower (normalize_client_name c.name)
            normalized_input = normalized_db ||
              strContains normalized_db normalized_input ||
              strContains normalized_input normalized_db)))

def spectrioC6ex : Client :=
  { id := 1, name := "Spectrio", default_rate := 95, template_type := "hourly",
    invoice_prefix := "SPECTRIO", next_invoice_number := none }

def codeSchoolC6ex : Client :=
  { id := 2, name := "Code School", default_rate := 0, template_type := "tuition",
    invoice_prefix := "GUAM", next_invoice_number := none }

def rosterC6ex : List Client := [spectrioC6ex, codeSchoolC6ex]

/-- **C6 (amended).** Client resolution tries, in order with the first
roster hit winning: (1) case-insensitive exact equality; (2)
case-insensitive containment of the input *inside* a stored name (one
direction only); (3) one pass over the roster accepting normalized
equality or normalized containment in either direction; it returns `none`
exactly when all passes fail. The claim's examples hold:
`"spectrio llc"` resolves to `Spectrio` and `"Acme"` to `none`. -/
theorem client_resolution_amended :
    (∀ (input : String) (roster : List Client),
      find_or_suggest_client input roster = amendedResolveC6 input roster) ∧
    find_or_suggest_client "spectrio llc" rosterC6ex = some spectrioC6ex ∧
    find_or_suggest_client "Acme" rosterC6ex = none := by
  refine ⟨?_, by decide, by decide⟩
  intro input roster
  by_cases hin : input = ""
  · simp [find_or_suggest_client, amendedResolveC6, hin]
  · simp only [find_or_suggest_client, amendedResolveC6, hin, if_neg, ite_false]
    cases h1 : roster.find? (fun c => pyLower c.name = pyLower input) with
    | some c => simp [Option.orElse]
    | none =>
      cases h2 : roster.find? (fun c => strContains (pyLower c.name) (pyLower input)) with
      | some c => simp [Option.orElse]
      | none => simp [Option.orElse]

/-- Counterexample to C6 as stated: against the roster
`[Apple, The Big Apple Company]`, the input `"Big Apple"` resolves in the
code to `The Big Apple Company` (step 2 only checks input-inside-name),
while the claim's bidirectional step 2 picks `Apple` first. -/
theorem substring_direction_counterexample :
    find_or_suggest_client "Big Apple"
        [{ id := 1, name := "Apple", default_rate := 0, template_type := "hourly",
           invoice_prefix := "INV", next_invoice_number := none },
         { id := 2, name := "The Big Apple Company", default_rate := 0,
           template_type := "hourly", invoice_prefix := "INV",
           next_invoice_number := none }] =
      some { id := 2, name := "The Big Apple Company", default_rate := 0,
             template_type := "hourly", invoice_prefix := "INV",
             next_invoice_number := none } ∧
    claimResolveC6 "Big Apple"
        [{ id := 1, name := "Apple", default_rate := 0, template_type := "hourly",
           invoice_prefix := "INV", next_invoice_number := none },
         { id := 2, name := "The Big Apple Company", default_rate := 0,
           template_type := "hourly", invoice_prefix := "INV",
           next_invoice_number := none }] =
      some { id := 1, name := "Apple", default_rate := 0, template_type := "hourly",
             invoice_prefix := "INV", next_invoice_number := none } ∧
    ({ id := 1, name := "Apple", default_rate := 0, template_type := "hourly",
       invoice_prefix := "INV", next_invoice_number := none } : Client) ≠
      { id := 2, name := "The Big Apple Company", default_rate := 0,
        template_type := "hourly", invoice_prefix := "INV",
        next_invoice_number := none } := by
  exact ⟨by decide, by decide, by decide⟩
